import Mathlib

/-!
Shallow embedding of the weather-telegram-bot repository.

Sources embedded:
- src/weather_providers/open_meteo.py   (OpenMeteoProvider)
- src/weather_providers/openweathermap.py (OpenWeatherMapProvider)
- src/weather_providers/factory.py      (WeatherProviderFactory)
- src/main.py                           (WeatherTelegramBot: run dispatch, temp storage)

Python floats are modelled as rationals, UTC instants as integer epoch
seconds, calendar dates as integer day indices (floor of seconds / 86400,
matching datetime.date of a UTC datetime) or as civil (year, month, day)
triples where the code formats dates as strings.
-/

/-- The calendar-date index of an instant given in epoch seconds:
`datetime.fromtimestamp(ts, tz=utc).date()` viewed as a day count.
`/` on ℤ is Euclidean division, which is floor division for the
positive divisor 86400. -/
def epochDate (t : ℤ) : ℤ := t / 86400

/-- Python3 `round(q)` on a real number: round half to even. -/
def roundHalfEven (q : ℚ) : ℤ :=
  if q - ⌊q⌋ < 1/2 then ⌊q⌋
  else if 1/2 < q - ⌊q⌋ then ⌊q⌋ + 1
  else if ⌊q⌋ % 2 = 0 then ⌊q⌋ else ⌊q⌋ + 1

/-- Python3 `round(q, 1)`: round to one decimal digit, ties to even. -/
def round1 (q : ℚ) : ℚ := (roundHalfEven (10 * q) : ℚ) / 10

/-- Python `str.lower()` restricted to the ASCII strings this program uses. -/
def lowerStr (s : String) : String := String.mk (s.data.map Char.toLower)

/-- The decimal digit character for `n < 10`. -/
def digitChar (n : ℕ) : Char := Char.ofNat (48 + n)

/-- A single-quote character, used inside error message strings. -/
def squote : String := String.mk [Char.ofNat 39]

/-! ## OpenMeteoProvider (src/weather_providers/open_meteo.py) -/

/-- The WMO `code_map` table of `OpenMeteoProvider._weather_code_to_description`,
in source order. -/
def weather_code_map : List (ℤ × String) :=
  [(0, "clear sky"),
   (1, "mainly clear"),
   (2, "partly cloudy"),
   (3, "overcast"),
   (45, "fog"),
   (48, "depositing rime fog"),
   (51, "light drizzle"),
   (53, "moderate drizzle"),
   (55, "dense drizzle"),
   (56, "light freezing drizzle"),
   (57, "dense freezing drizzle"),
   (61, "slight rain"),
   (63, "moderate rain"),
   (65, "heavy rain"),
   (66, "light freezing rain"),
   (67, "heavy freezing rain"),
   (71, "slight snow fall"),
   (73, "moderate snow fall"),
   (75, "heavy snow fall"),
   (77, "snow grains"),
   (80, "slight rain showers"),
   (81, "moderate rain showers"),
   (82, "violent rain showers"),
   (85, "slight snow showers"),
   (86, "heavy snow showers"),
   (95, "thunderstorm"),
   (96, "thunderstorm with slight hail"),
   (99, "thunderstorm with heavy hail")]

/-- `OpenMeteoProvider._weather_code_to_description`:
`code_map.get(code, f"unknown weather code \x7bcode\x7d")`. -/
def weather_code_to_description (code : ℤ) : String :=
  match weather_code_map.lookup code with
  | some s => s
  | none => ("unknown weather code " ++ toString code)

/-- The JSON fields of the Open-Meteo forecast response that
`OpenMeteoProvider.get_today_forecast` reads. -/
structure OMResponse where
  utc_offset_seconds : ℤ
  hourly_time : List ℤ
  hourly_temperature_2m : List ℚ
  hourly_weather_code : List ℤ
  daily_temperature_2m_max : List ℚ
  daily_temperature_2m_min : List ℚ
deriving DecidableEq

/-- One entry of the `detailed_forecast` list built by
`OpenMeteoProvider.get_today_forecast`. -/
structure OMEntry where
  temp : ℚ
  timestamp : ℤ
  description : String
deriving DecidableEq

/-- The snapshot dictionary returned by a provider's `get_today_forecast`,
parametric in the shape of its detailed-forecast entries. -/
structure Snapshot (ε : Type) where
  forecasted_max : ℚ
  forecasted_min : ℚ
  current_temp : ℚ
  description : String
  detailed_forecast : List ε
deriving DecidableEq

/-- The filter condition of the hourly loop in
`OpenMeteoProvider.get_today_forecast`:
`forecast_dt_local.date() == location_today and forecast_dt_utc >= now_utc`,
where `forecast_dt_local = forecast_dt_utc + offset` and
`location_today = (now_utc + offset).date()`. -/
def omKeep (now off ts : ℤ) : Bool :=
  (epochDate (ts + off) == epochDate (now + off)) && decide (now ≤ ts)

/-- The Open-Meteo inclusion rule in the words of the spec: a sample is kept
iff its offset-shifted calendar date equals the offset-shifted date of the
current UTC instant and its raw UTC instant is at or after the current UTC
instant. -/
def specOMKeep (now off ts : ℤ) : Prop :=
  epochDate (ts + off) = epochDate (now + off) ∧ now ≤ ts

/-- The hourly loop of `OpenMeteoProvider.get_today_forecast`: walks
`hourly_times` with index `i` and, for each kept sample, reads
`hourly_temps[i]` and `hourly_codes[i]` (an out-of-range read raises in
Python, hence `none`). Collects `(ts, temp, code)` per kept sample. -/
def omCollect (now off : ℤ) (temps : List ℚ) (codes : List ℤ) :
    List ℤ → ℕ → Option (List (ℤ × ℚ × ℤ))
  | [], _ => some []
  | ts :: rest, i =>
    if omKeep now off ts then
      match temps[i]?, codes[i]? with
      | some t, some c => (omCollect now off temps codes rest (i + 1)).map (fun l => (ts, t, c) :: l)
      | _, _ => none
    else omCollect now off temps codes rest (i + 1)

/-- `OpenMeteoProvider.get_today_forecast` after the HTTP fetch: from the
response fields and the current UTC instant to the returned snapshot.
`none` models a raised IndexError (empty `hourly`/`daily` arrays).
For kept samples: `future_temps` are the raw kept temperatures,
`current_temp = future_temps[0]` (fallback `hourly_temps[0]`),
`forecasted_max = max(max(future_temps), daily_max)` (dually for min),
all rounded to one decimal on output. -/
def omGetTodayForecast (r : OMResponse) (now : ℤ) : Option (Snapshot OMEntry) :=
  match omCollect now r.utc_offset_seconds r.hourly_temperature_2m r.hourly_weather_code
      r.hourly_time 0 with
  | none => none
  | some kept =>
    match r.daily_temperature_2m_max[0]?, r.daily_temperature_2m_min[0]? with
    | some daily_max, some daily_min =>
      match kept with
      | [] =>
        match r.hourly_temperature_2m[0]?, r.hourly_weather_code[0]? with
        | some t0, some c0 =>
          some { forecasted_max := round1 daily_max
                 forecasted_min := round1 daily_min
                 current_temp := round1 t0
                 description := weather_code_to_description c0
                 detailed_forecast := [] }
        | _, _ => none
      | k :: ks =>
        some { forecasted_max := round1 (max ((ks.map (fun x => x.2.1)).foldl max k.2.1) daily_max)
               forecasted_min := round1 (min ((ks.map (fun x => x.2.1)).foldl min k.2.1) daily_min)
               current_temp := round1 k.2.1
               description := weather_code_to_description k.2.2
               detailed_forecast := (k :: ks).map (fun x =>
                 { temp := round1 x.2.1
                   timestamp := x.1
                   description := weather_code_to_description x.2.2 }) }
    | _, _ => none

/-- The kept hourly samples of an Open-Meteo response, as `(time, temp, code)`
triples in response order (specification-level description of the loop,
assuming aligned arrays). -/
def omKeptSamples (r : OMResponse) (now : ℤ) : List (ℤ × ℚ × ℤ) :=
  (r.hourly_time.zip (r.hourly_temperature_2m.zip r.hourly_weather_code)).filter
    (fun x => omKeep now r.utc_offset_seconds x.1)

/-- The kept hourly temperatures of an Open-Meteo response. -/
def omFutureTemps (r : OMResponse) (now : ℤ) : List ℚ :=
  (omKeptSamples r now).map (fun x => x.2.1)

/-- Python `max(l)` for a list (meaningful for non-empty `l`). -/
def maxOf : List ℚ → ℚ
  | [] => 0
  | x :: xs => xs.foldl max x

/-- Python `min(l)` for a list (meaningful for non-empty `l`). -/
def minOf : List ℚ → ℚ
  | [] => 0
  | x :: xs => xs.foldl min x

/-! ## OpenWeatherMapProvider (src/weather_providers/openweathermap.py) -/

/-- One entry of the OpenWeatherMap 5-day forecast response list: the fields
`forecast["dt"]`, `forecast["main"][...]` and
`forecast["weather"][0]["description"]` that the code reads. -/
structure OWMEntry where
  dt : ℤ
  temp : ℚ
  feels_like : ℚ
  temp_min : ℚ
  temp_max : ℚ
  description : String
deriving DecidableEq

/-- The dictionary returned by `OpenWeatherMapProvider.get_current_weather`
(it always contains `temp`, `temp_max`, `temp_min`, `description`, so the
fallback's `current_data.get("temp_max", current_data["temp"])` always finds
`temp_max`, and likewise for `temp_min`). -/
structure CurrentWeather where
  temp : ℚ
  temp_max : ℚ
  temp_min : ℚ
  description : String
deriving DecidableEq

/-- `strftime("%H:%M")` of the UTC datetime at epoch second `t`. -/
def timeHM (t : ℤ) : String :=
  String.mk [digitChar ((t / 3600 % 24).toNat / 10), digitChar ((t / 3600 % 24).toNat % 10),
    ':', digitChar ((t / 60 % 60).toNat / 10), digitChar ((t / 60 % 60).toNat % 10)]

/-- One entry of `today_forecasts` built by
`OpenWeatherMapProvider.get_today_forecast`; `temp` is kept unrounded. -/
structure OWMKeptEntry where
  temp : ℚ
  feels_like : ℚ
  temp_min : ℚ
  temp_max : ℚ
  time : String
  timestamp : ℤ
  description : String
deriving DecidableEq

/-- The filter condition of `OpenWeatherMapProvider.get_today_forecast`:
`forecast_dt_utc.date() == today and forecast_dt_utc >= now` where
`today = datetime.now().date()` is the date of the MACHINE-LOCAL wall clock
(UTC now shifted by the machine's UTC offset `machine_offset`), while
`forecast_dt_utc` and `now` are UTC. -/
def owmKeep (now machine_offset dt : ℤ) : Bool :=
  (epochDate dt == epochDate (now + machine_offset)) && decide (now ≤ dt)

/-- The OpenWeatherMap inclusion rule in the words of the spec: keep entries
whose UTC calendar date equals the current UTC calendar date and whose UTC
instant is at or after the current UTC instant. -/
def specOWMKeep (now dt : ℤ) : Prop :=
  epochDate dt = epochDate now ∧ now ≤ dt

/-- `OpenWeatherMapProvider.get_today_forecast` after the HTTP fetches: from
the forecast list, the current UTC instant, the machine UTC offset (which
determines `datetime.now().date()`) and the current-weather fallback data to
the returned snapshot. -/
def owmGetTodayForecast (now machine_offset : ℤ) (forecast_list : List OWMEntry)
    (current_data : CurrentWeather) : Snapshot OWMKeptEntry :=
  match (forecast_list.filter (fun f => owmKeep now machine_offset f.dt)).map (fun f =>
      { temp := f.temp
        feels_like := f.feels_like
        temp_min := f.temp_min
        temp_max := f.temp_max
        time := timeHM f.dt
        timestamp := f.dt
        description := f.description : OWMKeptEntry }) with
  | [] =>
    { forecasted_max := round1 current_data.temp_max
      forecasted_min := round1 current_data.temp_min
      current_temp := round1 current_data.temp
      description := current_data.description
      detailed_forecast := [] }
  | e :: rest =>
    { forecasted_max := round1 ((rest.map (fun f => f.temp)).foldl max e.temp)
      forecasted_min := round1 ((rest.map (fun f => f.temp)).foldl min e.temp)
      current_temp := round1 e.temp
      description := e.description
      detailed_forecast := e :: rest }

/-! ## WeatherProviderFactory (src/weather_providers/factory.py) -/

/-- A constructed provider instance. -/
inductive Provider where
  | openweathermap (api_key : Option String)
  | open_meteo (api_key : Option String)
deriving DecidableEq

/-- The keys of `WeatherProviderFactory._providers`, in source order. -/
def providerNames : List String := ["openweathermap", "open_meteo"]

/-- Python truthiness test `not api_key` on an optional string. -/
def apiKeyFalsy : Option String → Bool
  | none => true
  | some s => s.isEmpty

/-- `WeatherProviderFactory.create_provider`, with
`OpenWeatherMapProvider.__init__`'s `ValueError` for a missing API key
inlined; errors are the raised exception messages. -/
def create_provider (name : String) (api_key : Option String) : Except String Provider :=
  if lowerStr name ∈ providerNames then
    if lowerStr name = "openweathermap" then
      if apiKeyFalsy api_key then Except.error ("OpenWeatherMap API key is required")
      else Except.ok (Provider.openweathermap api_key)
    else Except.ok (Provider.open_meteo api_key)
  else
    Except.error ("Unsupported weather provider " ++ squote ++ lowerStr name ++ squote
      ++ ". Available providers: " ++ String.intercalate (", ") providerNames)

/-! ## WeatherTelegramBot.run (src/main.py) -/

/-- Which report an invocation produces. -/
inductive ReportKind where
  | morning
  | evening
deriving DecidableEq

/-- `WeatherTelegramBot.run`: `if self.report_type.lower() == "evening"`
run the evening report, `else` run the morning report. The local hour is not
consulted anywhere. -/
def runReportKind (report_type : String) : ReportKind :=
  if lowerStr report_type = "evening" then ReportKind.evening else ReportKind.morning

/-- The auto report-type rule in the words of the spec: local hour in
[17, 23] inclusive yields the evening report, every other hour the morning
report. -/
def spec_autoReportKind (localHour : ℤ) : ReportKind :=
  if 17 ≤ localHour ∧ localHour ≤ 23 then ReportKind.evening else ReportKind.morning

/-! ## Temperature storage (src/main.py: read_temp_storage / save_temp_storage /
get_today_actual_temps) -/

/-- One stored reading: `{"time": ..., "temp": ..., "description": ...}`. -/
structure Reading where
  time : String
  temp : ℚ
  description : String
deriving DecidableEq

/-- The storage file content: a JSON object mapping date strings to reading
lists, i.e. an insertion-ordered association list (Python dicts preserve
insertion order). -/
abbrev TempStore : Type := List (String × List Reading)

/-- A proleptic-Gregorian calendar date, as Python `datetime.date` carries it. -/
structure CivilDate where
  year : ℤ
  month : ℤ
  day : ℤ
deriving DecidableEq

/-- Gregorian leap year, as `datetime` implements it. -/
def isLeapYear (y : ℤ) : Prop := (y % 4 = 0 ∧ y % 100 ≠ 0) ∨ y % 400 = 0

instance (y : ℤ) : Decidable (isLeapYear y) := by
  unfold isLeapYear
  infer_instance

/-- Length of a month in the proleptic Gregorian calendar. -/
def daysInMonth (y m : ℤ) : ℤ :=
  if m = 2 then (if isLeapYear y then 29 else 28)
  else if m = 4 ∨ m = 6 ∨ m = 9 ∨ m = 11 then 30
  else 31

/-- A real calendar date whose `%Y` rendering is four digits. -/
def CivilDate.valid (x : CivilDate) : Prop :=
  1000 ≤ x.year ∧ x.year ≤ 9999 ∧ 1 ≤ x.month ∧ x.month ≤ 12 ∧
    1 ≤ x.day ∧ x.day ≤ daysInMonth x.year x.month

instance (x : CivilDate) : Decidable x.valid := by
  unfold CivilDate.valid
  infer_instance

/-- 365 years plus the leap days up to March 1 of year `y + 1` (Gregorian). -/
def yearDays (y : ℤ) : ℤ := 365 * y + y / 4 - y / 100 + y / 400

/-- Day number of a civil date (days since 1970-01-01, proleptic Gregorian;
the day-count arithmetic behind `datetime` and `timedelta(days=...)`). -/
def daysFromCivil (x : CivilDate) : ℤ :=
  yearDays (if x.month ≤ 2 then x.year - 1 else x.year)
    + (153 * ((x.month + 9) % 12) + 2) / 5 + x.day - 1 - 719468

/-- Lexicographic (chronological) order on civil dates. -/
def CivilDate.lexLt (x y : CivilDate) : Prop :=
  x.year < y.year ∨ (x.year = y.year ∧
    (x.month < y.month ∨ (x.month = y.month ∧ x.day < y.day)))

/-- Civil date of a day number (inverse of `daysFromCivil` on valid dates). -/
def civilFromDays (z0 : ℤ) : CivilDate :=
  let z := z0 + 719468
  let era := z / 146097
  let doe := z - era * 146097
  let yoe := (doe - doe / 1460 + doe / 36524 - doe / 146096) / 365
  let y := yoe + era * 400
  let doy := doe - (365 * yoe + yoe / 4 - yoe / 100)
  let mp := (5 * doy + 2) / 153
  let d := doy - (153 * mp + 2) / 5 + 1
  let m := mp + (if mp < 10 then 3 else -9)
  { year := y + (if m ≤ 2 then 1 else 0), month := m, day := d }

/-- `strftime("%Y-%m-%d")` of a civil date (years rendered with four digits,
months and days zero-padded to two). -/
def fmtDate (x : CivilDate) : String :=
  String.mk [digitChar (x.year.toNat / 1000), digitChar (x.year.toNat / 100 % 10),
    digitChar (x.year.toNat / 10 % 10), digitChar (x.year.toNat % 10), '-',
    digitChar (x.month.toNat / 10), digitChar (x.month.toNat % 10), '-',
    digitChar (x.day.toNat / 10), digitChar (x.day.toNat % 10)]

/-- The mutation of `temp_data` in `get_today_actual_temps` (src/main.py
lines 122-130): `if today_str not in temp_data: temp_data[today_str] = []`
then `temp_data[today_str].append(reading)`. A fresh key is inserted at the
end, an existing key keeps its position. -/
def appendReading (data : TempStore) (key : String) (r : Reading) : TempStore :=
  if data.any (fun p => p.1 == key) then
    data.map (fun p => if p.1 == key then (p.1, p.2 ++ [r]) else p)
  else
    data ++ [(key, [r])]

/-- `WeatherTelegramBot.save_temp_storage` (src/main.py lines 169-182) with
`now` given as a day number: `cutoff_date = (now - timedelta(days=7)).strftime("%Y-%m-%d")`,
then keep exactly the entries with `date >= cutoff_date` (string comparison). -/
def save_temp_storage (nowDay : ℤ) (data : TempStore) : TempStore :=
  let cutoff_date := fmtDate (civilFromDays (nowDay - 7))
  data.filter (fun p => decide (cutoff_date ≤ p.1))

/-- The storage round trip of one evening invocation on day `nowDay`
(read is the identity on the parsed file content): append today's reading,
then save with the 7-day retention filter. -/
def recordReadingStep (nowDay : ℤ) (data : TempStore) (r : Reading) : TempStore :=
  save_temp_storage nowDay (appendReading data (fmtDate (civilFromDays nowDay)) r)

/-! ## Concrete inputs used by witnesses and counterexamples -/

/-- A sample Open-Meteo response: one hourly sample at epoch 0 with
temperature 10 and code 0 (kept at instant 0), daily max 12 and min 8,
offset 0. -/
def exOMResponse : OMResponse :=
  { utc_offset_seconds := 0
    hourly_time := [0]
    hourly_temperature_2m := [10]
    hourly_weather_code := [0]
    daily_temperature_2m_max := [12]
    daily_temperature_2m_min := [8] }

/-- The snapshot `exOMResponse` yields at instant 0. -/
def exOMSnapshot : Snapshot OMEntry :=
  { forecasted_max := 12
    forecasted_min := 8
    current_temp := 10
    description := "clear sky"
    detailed_forecast := [{ temp := 10, timestamp := 0, description := "clear sky" }] }

/-- An Open-Meteo response whose kept hourly temperature (10.27) is not a
one-decimal value and whose daily min (20) exceeds its daily max (5). -/
def exOMResponseOdd : OMResponse :=
  { utc_offset_seconds := 0
    hourly_time := [0]
    hourly_temperature_2m := [1027/100]
    hourly_weather_code := [0]
    daily_temperature_2m_max := [5]
    daily_temperature_2m_min := [20] }

/-- An Open-Meteo response with empty hourly arrays (daily arrays present). -/
def exOMResponseEmpty : OMResponse :=
  { utc_offset_seconds := 0
    hourly_time := []
    hourly_temperature_2m := []
    hourly_weather_code := []
    daily_temperature_2m_max := [12]
    daily_temperature_2m_min := [8] }

/-- An OpenWeatherMap forecast entry at epoch 0 whose temperature (10.27) is
not a one-decimal value. -/
def exOWMEntry : OWMEntry :=
  { dt := 0
    temp := 1027/100
    feels_like := 10
    temp_min := 9
    temp_max := 11
    description := "light rain" }

/-- The first detailed entry of `exOMSnapshot`. -/
def exOMEntry : OMEntry :=
  { temp := 10
    timestamp := 0
    description := "clear sky" }

/-- The kept entry `OpenWeatherMapProvider.get_today_forecast` builds from
`exOWMEntry` (temperature kept unrounded). -/
def exOWMKeptEntry : OWMKeptEntry :=
  { temp := 1027/100
    feels_like := 10
    temp_min := 9
    temp_max := 11
    time := timeHM 0
    timestamp := 0
    description := "light rain" }

/-- A sample current-weather fallback record. -/
def exCurrent : CurrentWeather :=
  { temp := 10
    temp_max := 12
    temp_min := 8
    description := "overcast" }

/-! ## Rounding lemmas -/

theorem roundHalfEven_intCast (n : ℤ) : roundHalfEven (n : ℚ) = n := by
  unfold roundHalfEven
  rw [Int.floor_intCast]
  norm_num

theorem round1_intCast (n : ℤ) : round1 (n : ℚ) = n := by
  unfold round1
  have h : (10 : ℚ) * (n : ℚ) = ((10 * n : ℤ) : ℚ) := by push_cast; ring
  rw [h, roundHalfEven_intCast]
  push_cast
  ring

theorem round1_1027over100 : round1 (1027/100 : ℚ) = 103/10 := by
  unfold round1 roundHalfEven
  have h10 : (10 : ℚ) * (1027/100) = 1027/10 := by norm_num
  rw [h10]
  have hf : ⌊(1027/10 : ℚ)⌋ = 102 := by
    rw [Int.floor_eq_iff]
    norm_num
  rw [hf]
  norm_num

theorem roundHalfEven_mono {a b : ℚ} (h : a ≤ b) : roundHalfEven a ≤ roundHalfEven b := by
  unfold roundHalfEven
  have hf : ⌊a⌋ ≤ ⌊b⌋ := Int.floor_mono h
  rcases eq_or_lt_of_le hf with heq | hlt
  · have h1 : a - (⌊b⌋ : ℚ) ≤ b - (⌊b⌋ : ℚ) := by
      rw [← heq]
      linarith
    rw [heq]
    split_ifs <;> first | omega | (exfalso; linarith [h1])
  · split_ifs <;> omega

theorem round1_mono {a b : ℚ} (h : a ≤ b) : round1 a ≤ round1 b := by
  unfold round1
  have h1 := roundHalfEven_mono (show 10 * a ≤ 10 * b by linarith)
  have h2 : ((roundHalfEven (10 * a) : ℤ) : ℚ) ≤ ((roundHalfEven (10 * b) : ℤ) : ℚ) := by
    exact_mod_cast h1
  linarith

theorem le_foldl_max (l : List ℚ) (x : ℚ) : x ≤ l.foldl max x := by
  induction l generalizing x with
  | nil => exact le_refl x
  | cons y ys ih => exact le_trans (le_max_left x y) (ih (max x y))

theorem foldl_min_le (l : List ℚ) (x : ℚ) : l.foldl min x ≤ x := by
  induction l generalizing x with
  | nil => exact le_refl x
  | cons y ys ih => exact le_trans (ih (min x y)) (min_le_left x y)

/-! ## C1: the OpenWeatherMap filter and the machine-local date -/

/-- C1: the OpenWeatherMap filter does not implement "UTC calendar date equals
the current UTC calendar date". At 23:30 UTC on epoch day 19900
(now = 1719444600) with the machine clock in a UTC+1 zone
(machine offset 3600 s), the entry at 23:45 UTC of the same UTC day
(dt = 1719445500) satisfies the claimed rule (same UTC date, not in the past)
but the code drops it: `today = datetime.now().date()` is the machine-local
date, which is already the next day. With the machine clock on UTC the two
rules agree on this entry. -/
theorem owm_filter_uses_machine_local_date :
    owmKeep 1719444600 3600 1719445500 = false ∧
    specOWMKeep 1719444600 1719445500 ∧
    owmKeep 1719444600 0 1719445500 = true := by
  refine ⟨by decide, ?_, by decide⟩
  unfold specOWMKeep
  exact ⟨by decide, by decide⟩

/-! ## C6: the WMO code table -/

/-- C6 counterexample: the `code_map` table of
`_weather_code_to_description` enumerates 28 codes, not 37. -/
theorem weather_code_map_has_28_codes :
    weather_code_map.length = 28 ∧ weather_code_map.length ≠ 37 := by
  exact ⟨rfl, by decide⟩

/-- C6 (amended): the WMO-code-to-text mapping is a total function given by a
fixed lookup table of 28 enumerated codes; every tabulated code maps to its
table entry, and every other integer code maps to the literal string
"unknown weather code " followed by the code value — never an error. -/
theorem weather_code_to_description_total :
    weather_code_map.length = 28 ∧
    (∀ code : ℤ, ∀ s : String, weather_code_map.lookup code = some s →
      weather_code_to_description code = s) ∧
    (∀ code : ℤ, weather_code_map.lookup code = none →
      weather_code_to_description code = ("unknown weather code " ++ toString code)) := by
  refine ⟨rfl, ?_, ?_⟩ <;> (intro code)
  · intro s h
    unfold weather_code_to_description
    rw [h]
  · intro h
    unfold weather_code_to_description
    rw [h]

/-- C6 witness: code 1000 is not in the table and renders as the literal
string "unknown weather code 1000". -/
theorem weather_code_to_description_witness :
    weather_code_map.lookup 1000 = none ∧
    weather_code_to_description 1000 = ("unknown weather code " ++ toString (1000 : ℤ)) :=
  ⟨by decide, weather_code_to_description_total.2.2 1000 (by decide)⟩

/-! ## C7: report-type dispatch in `run` -/

/-- C7 counterexample: `run` has no hour-based auto mode. With REPORT_TYPE
set to "auto" the code runs the morning report — at every local hour, since
the dispatch never reads a clock — while the claimed auto rule yields the
evening report at local hour 18. -/
theorem run_auto_is_morning :
    runReportKind ("auto") = ReportKind.morning ∧
    spec_autoReportKind 18 = ReportKind.evening := by
  exact ⟨by decide, by decide⟩

/-- C7 (amended): `run` dispatches solely on the configured report type:
a value whose lowercasing is "evening" selects the evening report and every
other value (including "auto") selects the morning report; no hour-based
auto-detection exists. -/
theorem run_dispatch (s : String) :
    (lowerStr s = "evening" → runReportKind s = ReportKind.evening) ∧
    (lowerStr s ≠ "evening" → runReportKind s = ReportKind.morning) := by
  unfold runReportKind
  constructor <;> (intro h; simp [h])

/-- C7 witness: "Evening" selects the evening report, "auto" the morning one. -/
theorem run_dispatch_witness :
    lowerStr ("Evening") = "evening" ∧ runReportKind ("Evening") = ReportKind.evening ∧
    lowerStr ("auto") ≠ "evening" ∧ runReportKind ("auto") = ReportKind.morning :=
  ⟨by decide, (run_dispatch ("Evening")).1 (by decide), by decide,
    (run_dispatch ("auto")).2 (by decide)⟩

/-! ## C8: the provider factory -/

/-- C8: an unrecognized provider name makes `create_provider` fail with the
`ValueError` message that enumerates every valid provider name, and
constructing the OpenWeatherMap provider with no API key fails with a
`ValueError`. -/
theorem create_provider_errors :
    (∀ name : String, ∀ api_key : Option String, lowerStr name ∉ providerNames →
      create_provider name api_key = Except.error ("Unsupported weather provider " ++ squote
        ++ lowerStr name ++ squote ++ ". Available providers: "
        ++ String.intercalate (", ") providerNames)) ∧
    String.intercalate (", ") providerNames = "openweathermap, open_meteo" ∧
    create_provider ("openweathermap") none = Except.error ("OpenWeatherMap API key is required") := by
  refine ⟨?_, rfl, rfl⟩
  intro name api_key h
  unfold create_provider
  rw [if_neg h]

/-- C8 witness: the name "bogus" is rejected with the message listing the
valid provider names. -/
theorem create_provider_witness :
    lowerStr ("bogus") ∉ providerNames ∧
    create_provider ("bogus") none = Except.error ("Unsupported weather provider " ++ squote
      ++ lowerStr ("bogus") ++ squote ++ ". Available providers: "
      ++ String.intercalate (", ") providerNames) :=
  ⟨by decide, create_provider_errors.1 ("bogus") none (by decide)⟩

/-! ## Characterizing the Open-Meteo hourly loop -/

theorem omCollect_eq (now off : ℤ) (temps : List ℚ) (codes : List ℤ) :
    ∀ (times : List ℤ) (i : ℕ),
      times.length + i ≤ temps.length → times.length + i ≤ codes.length →
      omCollect now off temps codes times i =
        some ((times.zip ((temps.drop i).zip (codes.drop i))).filter
          (fun x => omKeep now off x.1)) := by
  intro times
  induction times with
  | nil =>
    intro i _ _
    simp [omCollect]
  | cons ts rest ih =>
    intro i h1 h2
    have hi1 : i < temps.length := by simp only [List.length_cons] at h1; omega
    have hi2 : i < codes.length := by simp only [List.length_cons] at h2; omega
    have e1 : temps.drop i = temps[i] :: temps.drop (i + 1) := List.drop_eq_getElem_cons hi1
    have e2 : codes.drop i = codes[i] :: codes.drop (i + 1) := List.drop_eq_getElem_cons hi2
    have g1 : temps[i]? = some temps[i] := List.getElem?_eq_getElem hi1
    have g2 : codes[i]? = some codes[i] := List.getElem?_eq_getElem hi2
    have hrec := ih (i + 1) (by simp only [List.length_cons] at h1; omega)
      (by simp only [List.length_cons] at h2; omega)
    rw [e1, e2]
    cases hk : omKeep now off ts with
    | true =>
      simp only [omCollect, hk, if_true, g1, g2, hrec, Option.map_some', List.zip_cons_cons,
        List.filter_cons, if_pos hk]
    | false =>
      simp only [omCollect, hk, Bool.false_eq_true, if_false, hrec, List.zip_cons_cons,
        List.filter_cons]

theorem map_fst_filter_zip (p : ℤ → Bool) :
    ∀ (l1 : List ℤ) (l2 : List (ℚ × ℤ)), l1.length ≤ l2.length →
      ((l1.zip l2).filter (fun x => p x.1)).map Prod.fst = l1.filter p := by
  intro l1
  induction l1 with
  | nil =>
    intro l2 _
    simp
  | cons a l ih =>
    intro l2 h
    cases l2 with
    | nil => simp at h
    | cons b l2' =>
      simp only [List.zip_cons_cons, List.filter_cons]
      have hrec := ih l2' (by simp only [List.length_cons] at h; omega)
      cases hp : p a <;> simp [hp, hrec]

theorem omGet_kept_cons (r : OMResponse) (now : ℤ) (k : ℤ × ℚ × ℤ) (ks : List (ℤ × ℚ × ℤ))
    (dmax dmin : ℚ)
    (hT : r.hourly_temperature_2m.length = r.hourly_time.length)
    (hC : r.hourly_weather_code.length = r.hourly_time.length)
    (hK : omKeptSamples r now = k :: ks)
    (hdM : r.daily_temperature_2m_max[0]? = some dmax)
    (hdm : r.daily_temperature_2m_min[0]? = some dmin) :
    omGetTodayForecast r now = some
      { forecasted_max := round1 (max ((ks.map (fun x => x.2.1)).foldl max k.2.1) dmax)
        forecasted_min := round1 (min ((ks.map (fun x => x.2.1)).foldl min k.2.1) dmin)
        current_temp := round1 k.2.1
        description := weather_code_to_description k.2.2
        detailed_forecast := (k :: ks).map (fun x =>
          { temp := round1 x.2.1
            timestamp := x.1
            description := weather_code_to_description x.2.2 }) } := by
  have hcol := omCollect_eq now r.utc_offset_seconds r.hourly_temperature_2m
    r.hourly_weather_code r.hourly_time 0 (by omega) (by omega)
  simp only [List.drop_zero] at hcol
  have hks : omKeptSamples r now =
      (r.hourly_time.zip (r.hourly_temperature_2m.zip r.hourly_weather_code)).filter
        (fun x => omKeep now r.utc_offset_seconds x.1) := rfl
  unfold omGetTodayForecast
  rw [hcol, ← hks, hK, hdM, hdm]

theorem omGet_kept_nil (r : OMResponse) (now : ℤ) (dmax dmin t0 : ℚ) (c0 : ℤ)
    (hT : r.hourly_temperature_2m.length = r.hourly_time.length)
    (hC : r.hourly_weather_code.length = r.hourly_time.length)
    (hK : omKeptSamples r now = [])
    (hdM : r.daily_temperature_2m_max[0]? = some dmax)
    (hdm : r.daily_temperature_2m_min[0]? = some dmin)
    (ht0 : r.hourly_temperature_2m[0]? = some t0)
    (hc0 : r.hourly_weather_code[0]? = some c0) :
    omGetTodayForecast r now = some
      { forecasted_max := round1 dmax
        forecasted_min := round1 dmin
        current_temp := round1 t0
        description := weather_code_to_description c0
        detailed_forecast := [] } := by
  have hcol := omCollect_eq now r.utc_offset_seconds r.hourly_temperature_2m
    r.hourly_weather_code r.hourly_time 0 (by omega) (by omega)
  simp only [List.drop_zero] at hcol
  have hks : omKeptSamples r now =
      (r.hourly_time.zip (r.hourly_temperature_2m.zip r.hourly_weather_code)).filter
        (fun x => omKeep now r.utc_offset_seconds x.1) := rfl
  unfold omGetTodayForecast
  rw [hcol, ← hks, hK, hdM, hdm, ht0, hc0]

theorem omGet_inv (r : OMResponse) (now : ℤ) (snap : Snapshot OMEntry)
    (hT : r.hourly_temperature_2m.length = r.hourly_time.length)
    (hC : r.hourly_weather_code.length = r.hourly_time.length)
    (hget : omGetTodayForecast r now = some snap) :
    ∃ dmax dmin, r.daily_temperature_2m_max[0]? = some dmax ∧
      r.daily_temperature_2m_min[0]? = some dmin ∧
      ((omKeptSamples r now = [] ∧ ∃ t0 c0,
          r.hourly_temperature_2m[0]? = some t0 ∧ r.hourly_weather_code[0]? = some c0 ∧
          snap = { forecasted_max := round1 dmax
                   forecasted_min := round1 dmin
                   current_temp := round1 t0
                   description := weather_code_to_description c0
                   detailed_forecast := [] }) ∨
        (∃ k ks, omKeptSamples r now = k :: ks ∧
          snap = { forecasted_max := round1 (max ((ks.map (fun x => x.2.1)).foldl max k.2.1) dmax)
                   forecasted_min := round1 (min ((ks.map (fun x => x.2.1)).foldl min k.2.1) dmin)
                   current_temp := round1 k.2.1
                   description := weather_code_to_description k.2.2
                   detailed_forecast := (k :: ks).map (fun x =>
                     { temp := round1 x.2.1
                       timestamp := x.1
                       description := weather_code_to_description x.2.2 }) })) := by
  have hcol := omCollect_eq now r.utc_offset_seconds r.hourly_temperature_2m
    r.hourly_weather_code r.hourly_time 0 (by omega) (by omega)
  simp only [List.drop_zero] at hcol
  have hks : omKeptSamples r now =
      (r.hourly_time.zip (r.hourly_temperature_2m.zip r.hourly_weather_code)).filter
        (fun x => omKeep now r.utc_offset_seconds x.1) := rfl
  rcases hM : r.daily_temperature_2m_max[0]? with _ | dmax <;>
    rcases hm : r.daily_temperature_2m_min[0]? with _ | dmin <;>
    rcases hK : omKeptSamples r now with _ | ⟨k, ks⟩
  · have hval : omGetTodayForecast r now = none := by
      unfold omGetTodayForecast
      rw [hcol, ← hks, hK, hM, hm]
    rw [hval] at hget
    exact absurd hget (by simp)
  · have hval : omGetTodayForecast r now = none := by
      unfold omGetTodayForecast
      rw [hcol, ← hks, hK, hM, hm]
    rw [hval] at hget
    exact absurd hget (by simp)
  · have hval : omGetTodayForecast r now = none := by
      unfold omGetTodayForecast
      rw [hcol, ← hks, hK, hM, hm]
    rw [hval] at hget
    exact absurd hget (by simp)
  · have hval : omGetTodayForecast r now = none := by
      unfold omGetTodayForecast
      rw [hcol, ← hks, hK, hM, hm]
    rw [hval] at hget
    exact absurd hget (by simp)
  · have hval : omGetTodayForecast r now = none := by
      unfold omGetTodayForecast
      rw [hcol, ← hks, hK, hM, hm]
    rw [hval] at hget
    exact absurd hget (by simp)
  · have hval : omGetTodayForecast r now = none := by
      unfold omGetTodayForecast
      rw [hcol, ← hks, hK, hM, hm]
    rw [hval] at hget
    exact absurd hget (by simp)
  · rcases ht0 : r.hourly_temperature_2m[0]? with _ | t0 <;>
      rcases hc0 : r.hourly_weather_code[0]? with _ | c0
    · have hval : omGetTodayForecast r now = none := by
        unfold omGetTodayForecast
        rw [hcol, ← hks, hK, hM, hm, ht0, hc0]
      rw [hval] at hget
      exact absurd hget (by simp)
    · have hval : omGetTodayForecast r now = none := by
        unfold omGetTodayForecast
        rw [hcol, ← hks, hK, hM, hm, ht0, hc0]
      rw [hval] at hget
      exact absurd hget (by simp)
    · have hval : omGetTodayForecast r now = none := by
        unfold omGetTodayForecast
        rw [hcol, ← hks, hK, hM, hm, ht0, hc0]
      rw [hval] at hget
      exact absurd hget (by simp)
    · have hval := omGet_kept_nil r now dmax dmin t0 c0 hT hC hK hM hm ht0 hc0
      rw [hval] at hget
      have hsnap := Option.some.inj hget
      exact ⟨dmax, dmin, rfl, rfl, Or.inl ⟨rfl, t0, c0, rfl, rfl, hsnap.symm⟩⟩
  · have hval := omGet_kept_cons r now k ks dmax dmin hT hC hK hM hm
    rw [hval] at hget
    have hsnap := Option.some.inj hget
    exact ⟨dmax, dmin, rfl, rfl, Or.inr ⟨k, ks, rfl, hsnap.symm⟩⟩

/-! ## Evaluating the providers on the sample inputs -/

theorem omGet_exOMResponse : omGetTodayForecast exOMResponse 0 = some exOMSnapshot := by
  have r12 : round1 (12 : ℚ) = 12 := by exact_mod_cast round1_intCast 12
  have r10 : round1 (10 : ℚ) = 10 := by exact_mod_cast round1_intCast 10
  have r8 : round1 (8 : ℚ) = 8 := by exact_mod_cast round1_intCast 8
  have h := omGet_kept_cons exOMResponse 0 (0, 10, 0) [] 12 8 rfl rfl rfl rfl rfl
  rw [h]
  unfold exOMSnapshot
  simp only [List.map_nil, List.foldl_nil, List.map_cons, Option.some.injEq, Snapshot.mk.injEq]
  refine ⟨?_, ?_, ?_, rfl, ?_⟩
  · show round1 (max (10 : ℚ) 12) = 12
    rw [max_eq_right (by norm_num : (10:ℚ) ≤ 12), r12]
  · show round1 (min (10 : ℚ) 8) = 8
    rw [min_eq_right (by norm_num : (8:ℚ) ≤ 10), r8]
  · exact r10
  · show ({ temp := round1 (10 : ℚ), timestamp := 0, description := weather_code_to_description 0 } : OMEntry) :: [] = [{ temp := 10, timestamp := 0, description := "clear sky" }]
    rw [r10]
    rfl

theorem omGet_exOMResponseOdd : omGetTodayForecast exOMResponseOdd 0 = some
    { forecasted_max := 103/10
      forecasted_min := 103/10
      current_temp := 103/10
      description := "clear sky"
      detailed_forecast := [{ temp := 103/10, timestamp := 0, description := "clear sky" }] } := by
  have h := omGet_kept_cons exOMResponseOdd 0 (0, 1027/100, 0) [] 5 20 rfl rfl rfl rfl rfl
  rw [h]
  simp only [List.map_nil, List.foldl_nil, List.map_cons, Option.some.injEq, Snapshot.mk.injEq]
  refine ⟨?_, ?_, ?_, rfl, ?_⟩
  · show round1 (max (1027/100 : ℚ) 5) = 103/10
    rw [max_eq_left (by norm_num : (5:ℚ) ≤ 1027/100)]
    exact round1_1027over100
  · show round1 (min (1027/100 : ℚ) 20) = 103/10
    rw [min_eq_left (by norm_num : (1027/100:ℚ) ≤ 20)]
    exact round1_1027over100
  · exact round1_1027over100
  · show ({ temp := round1 (1027/100 : ℚ), timestamp := 0, description := weather_code_to_description 0 } : OMEntry) :: [] = [{ temp := 103/10, timestamp := 0, description := "clear sky" }]
    rw [round1_1027over100]
    rfl

theorem owmGet_cases (now off : ℤ) (fl : List OWMEntry) (cur : CurrentWeather) :
    ((owmGetTodayForecast now off fl cur).detailed_forecast = [] ∧
     (owmGetTodayForecast now off fl cur).forecasted_max = round1 cur.temp_max ∧
     (owmGetTodayForecast now off fl cur).forecasted_min = round1 cur.temp_min ∧
     (owmGetTodayForecast now off fl cur).current_temp = round1 cur.temp) ∨
    (∃ e rest, (owmGetTodayForecast now off fl cur).detailed_forecast = e :: rest ∧
     (owmGetTodayForecast now off fl cur).forecasted_max = round1 ((rest.map (fun f => f.temp)).foldl max e.temp) ∧
     (owmGetTodayForecast now off fl cur).forecasted_min = round1 ((rest.map (fun f => f.temp)).foldl min e.temp) ∧
     (owmGetTodayForecast now off fl cur).current_temp = round1 e.temp) := by
  unfold owmGetTodayForecast
  split
  · exact Or.inl ⟨rfl, rfl, rfl, rfl⟩
  · exact Or.inr ⟨_, _, rfl, rfl, rfl, rfl⟩

/-! ## C2: the Open-Meteo inclusion rule -/

/-- C2: in `OpenMeteoProvider.get_today_forecast` (aligned hourly arrays,
successful run), a sample is kept iff its offset-shifted calendar date equals
the offset-shifted date of the current UTC instant AND its raw UTC instant is
at or after the current UTC instant: the code's filter coincides with the
spec's rule, the detailed forecast lists exactly the kept samples in order,
and its timestamps are exactly the hourly times passing the filter. -/
theorem openMeteo_keep_iff (r : OMResponse) (now ts : ℤ) (snap : Snapshot OMEntry)
    (hT : r.hourly_temperature_2m.length = r.hourly_time.length)
    (hC : r.hourly_weather_code.length = r.hourly_time.length)
    (hget : omGetTodayForecast r now = some snap) :
    (omKeep now r.utc_offset_seconds ts = true ↔ specOMKeep now r.utc_offset_seconds ts) ∧
    snap.detailed_forecast = (omKeptSamples r now).map (fun x =>
      { temp := round1 x.2.1
        timestamp := x.1
        description := weather_code_to_description x.2.2 }) ∧
    snap.detailed_forecast.map OMEntry.timestamp =
      r.hourly_time.filter (fun t => omKeep now r.utc_offset_seconds t) := by
  have hiff : ∀ u, omKeep now r.utc_offset_seconds u = true ↔
      specOMKeep now r.utc_offset_seconds u := by
    intro u
    unfold omKeep specOMKeep
    simp [Bool.and_eq_true, beq_iff_eq, decide_eq_true_eq]
  have hdet : snap.detailed_forecast = (omKeptSamples r now).map (fun x =>
      { temp := round1 x.2.1
        timestamp := x.1
        description := weather_code_to_description x.2.2 : OMEntry }) := by
    obtain ⟨dmax, dmin, hM, hm, hcase⟩ := omGet_inv r now snap hT hC hget
    rcases hcase with ⟨hK, t0, c0, ht0, hc0, rfl⟩ | ⟨k, ks, hK, rfl⟩
    · simp [hK]
    · simp [hK]
  refine ⟨hiff ts, hdet, ?_⟩
  calc snap.detailed_forecast.map OMEntry.timestamp
      = (omKeptSamples r now).map (fun x => x.1) := by
        rw [hdet, List.map_map]
        rfl
    _ = r.hourly_time.filter (fun t => omKeep now r.utc_offset_seconds t) := by
        have h := map_fst_filter_zip (fun t => omKeep now r.utc_offset_seconds t)
          r.hourly_time (r.hourly_temperature_2m.zip r.hourly_weather_code)
          (by rw [List.length_zip]; omega)
        simpa only [omKeptSamples] using h

/-- C2 witness: the sample response with one kept hourly sample. -/
theorem openMeteo_keep_iff_witness :
    exOMResponse.hourly_temperature_2m.length = exOMResponse.hourly_time.length ∧
    omGetTodayForecast exOMResponse 0 = some exOMSnapshot ∧
    ((omKeep 0 exOMResponse.utc_offset_seconds 0 = true ↔
        specOMKeep 0 exOMResponse.utc_offset_seconds 0) ∧
      exOMSnapshot.detailed_forecast = (omKeptSamples exOMResponse 0).map (fun x =>
        { temp := round1 x.2.1
          timestamp := x.1
          description := weather_code_to_description x.2.2 }) ∧
      exOMSnapshot.detailed_forecast.map OMEntry.timestamp =
        exOMResponse.hourly_time.filter (fun t => omKeep 0 exOMResponse.utc_offset_seconds t)) :=
  ⟨rfl, omGet_exOMResponse,
    openMeteo_keep_iff exOMResponse 0 0 exOMSnapshot rfl rfl omGet_exOMResponse⟩

/-! ## C3: forecasted_max is at least forecasted_min -/

/-- C3: on both providers the returned snapshot satisfies
forecasted_min ≤ forecasted_max; on branches that only echo upstream
aggregates (the OpenWeatherMap current-weather fallback, the Open-Meteo
no-kept-samples branch) this holds under the hypothesis that the upstream
max is at least the corresponding min. -/
theorem snapshot_max_ge_min :
    (∀ (now machine_offset : ℤ) (forecast_list : List OWMEntry) (current_data : CurrentWeather),
      current_data.temp_min ≤ current_data.temp_max →
      (owmGetTodayForecast now machine_offset forecast_list current_data).forecasted_min ≤
        (owmGetTodayForecast now machine_offset forecast_list current_data).forecasted_max) ∧
    (∀ (r : OMResponse) (now : ℤ) (snap : Snapshot OMEntry) (dmax dmin : ℚ),
      r.hourly_temperature_2m.length = r.hourly_time.length →
      r.hourly_weather_code.length = r.hourly_time.length →
      r.daily_temperature_2m_max[0]? = some dmax →
      r.daily_temperature_2m_min[0]? = some dmin →
      dmin ≤ dmax →
      omGetTodayForecast r now = some snap →
      snap.forecasted_min ≤ snap.forecasted_max) := by
  constructor
  · intro now off fl cur hcur
    rcases owmGet_cases now off fl cur with ⟨_, hmax, hmin, _⟩ | ⟨e, rest, _, hmax, hmin, _⟩
    · rw [hmax, hmin]
      exact round1_mono hcur
    · rw [hmax, hmin]
      exact round1_mono (le_trans (foldl_min_le _ _) (le_foldl_max _ _))
  · intro r now snap dmax dmin hT hC hM hm hdd hget
    obtain ⟨dmax', dmin', hM', hm', hcase⟩ := omGet_inv r now snap hT hC hget
    rw [hM] at hM'
    rw [hm] at hm'
    obtain rfl : dmax = dmax' := Option.some.inj hM'
    obtain rfl : dmin = dmin' := Option.some.inj hm'
    rcases hcase with ⟨hK, t0, c0, ht0, hc0, rfl⟩ | ⟨k, ks, hK, rfl⟩
    · exact round1_mono hdd
    · exact round1_mono (le_trans (min_le_left _ _) (le_trans (foldl_min_le _ _)
        (le_trans (le_foldl_max _ _) (le_max_left _ _))))

/-- C3 witness: the OpenWeatherMap fallback on `exCurrent` and the sample
Open-Meteo response. -/
theorem snapshot_max_ge_min_witness :
    exCurrent.temp_min ≤ exCurrent.temp_max ∧
    (owmGetTodayForecast 0 0 [] exCurrent).forecasted_min ≤
      (owmGetTodayForecast 0 0 [] exCurrent).forecasted_max ∧
    (8 : ℚ) ≤ 12 ∧
    omGetTodayForecast exOMResponse 0 = some exOMSnapshot ∧
    exOMSnapshot.forecasted_min ≤ exOMSnapshot.forecasted_max :=
  ⟨by norm_num [exCurrent],
    snapshot_max_ge_min.1 0 0 [] exCurrent (by norm_num [exCurrent]),
    by norm_num,
    omGet_exOMResponse,
    snapshot_max_ge_min.2 exOMResponse 0 exOMSnapshot 12 8 rfl rfl rfl rfl (by norm_num)
      omGet_exOMResponse⟩

/-! ## C4: the Open-Meteo bounds versus the set extrema -/

/-- C4 counterexample: on `exOMResponseOdd` (kept hourly temperature 10.27,
daily max 5, daily min 20) the claimed value — the maximum of
(kept hourly temps ∪ with daily max and daily min) — is 20, but the code
returns forecasted_max = 10.3: the daily min never enters the max (nor the
daily max the min), and the result is rounded to one decimal. -/
theorem om_bounds_not_set_extrema :
    (omGetTodayForecast exOMResponseOdd 0).map (fun s => s.forecasted_max) = some (103/10) ∧
    maxOf (omFutureTemps exOMResponseOdd 0 ++ [5, 20]) = 20 ∧
    (103/10 : ℚ) ≠ 20 := by
  refine ⟨?_, ?_, by norm_num⟩
  · rw [omGet_exOMResponseOdd]
    rfl
  · show maxOf ([1027/100, 5, 20] : List ℚ) = 20
    simp only [maxOf, List.foldl_cons, List.foldl_nil]
    rw [max_eq_left (by norm_num : (5:ℚ) ≤ 1027/100),
      max_eq_right (by norm_num : (1027/100 : ℚ) ≤ 20)]

/-- C4 (amended): on an aligned response whose daily min is at most its daily
max, forecasted_max is the one-decimal rounding of the maximum of (kept
hourly temperatures ∪ with daily max and daily min) and forecasted_min the
rounding of the minimum of the same set; in particular the daily aggregates
participate in both bounds even when no hourly samples are kept. -/
theorem om_bounds_rounded_set_extrema (r : OMResponse) (now : ℤ) (snap : Snapshot OMEntry)
    (dmax dmin : ℚ)
    (hT : r.hourly_temperature_2m.length = r.hourly_time.length)
    (hC : r.hourly_weather_code.length = r.hourly_time.length)
    (hM : r.daily_temperature_2m_max[0]? = some dmax)
    (hm : r.daily_temperature_2m_min[0]? = some dmin)
    (hdd : dmin ≤ dmax)
    (hget : omGetTodayForecast r now = some snap) :
    snap.forecasted_max = round1 (maxOf (omFutureTemps r now ++ [dmax, dmin])) ∧
    snap.forecasted_min = round1 (minOf (omFutureTemps r now ++ [dmax, dmin])) := by
  obtain ⟨dmax', dmin', hM', hm', hcase⟩ := omGet_inv r now snap hT hC hget
  rw [hM] at hM'
  rw [hm] at hm'
  obtain rfl : dmax = dmax' := Option.some.inj hM'
  obtain rfl : dmin = dmin' := Option.some.inj hm'
  rcases hcase with ⟨hK, t0, c0, ht0, hc0, rfl⟩ | ⟨k, ks, hK, rfl⟩
  · unfold omFutureTemps
    rw [hK]
    simp only [List.map_nil, List.nil_append, maxOf, minOf, List.foldl_cons, List.foldl_nil]
    rw [max_eq_left hdd, min_eq_right hdd]
    exact ⟨rfl, rfl⟩
  · unfold omFutureTemps
    rw [hK]
    simp only [List.map_cons, List.cons_append, maxOf, minOf, List.foldl_cons, List.foldl_nil,
      List.foldl_append]
    constructor
    · show round1 (max ((ks.map (fun x => x.2.1)).foldl max k.2.1) dmax) =
        round1 (max (max ((ks.map (fun x => x.2.1)).foldl max k.2.1) dmax) dmin)
      rw [max_assoc, max_eq_left hdd]
    · show round1 (min ((ks.map (fun x => x.2.1)).foldl min k.2.1) dmin) =
        round1 (min (min ((ks.map (fun x => x.2.1)).foldl min k.2.1) dmax) dmin)
      rw [min_assoc, min_eq_right hdd]

/-- C4 witness: the sample response, whose bounds 12 and 8 are the rounded
extrema of the kept temperature 10 together with the daily aggregates. -/
theorem om_bounds_rounded_set_extrema_witness :
    (8 : ℚ) ≤ 12 ∧
    omGetTodayForecast exOMResponse 0 = some exOMSnapshot ∧
    exOMSnapshot.forecasted_max = round1 (maxOf (omFutureTemps exOMResponse 0 ++ [12, 8])) ∧
    exOMSnapshot.forecasted_min = round1 (minOf (omFutureTemps exOMResponse 0 ++ [12, 8])) :=
  ⟨by norm_num, omGet_exOMResponse,
    (om_bounds_rounded_set_extrema exOMResponse 0 exOMSnapshot 12 8 rfl rfl rfl rfl
      (by norm_num) omGet_exOMResponse).1,
    (om_bounds_rounded_set_extrema exOMResponse 0 exOMSnapshot 12 8 rfl rfl rfl rfl
      (by norm_num) omGet_exOMResponse).2⟩

/-! ## C5: current_temp versus the first detailed entry -/

/-- C5 counterexample: on an OpenWeatherMap run keeping one entry with raw
temperature 10.27, the snapshot's current_temp is the rounded 10.3 while the
first detailed-forecast entry carries the unrounded 10.27, so the two are
not equal. -/
theorem owm_current_temp_not_first_entry :
    (owmGetTodayForecast 0 0 [exOWMEntry] exCurrent).current_temp = 103/10 ∧
    (owmGetTodayForecast 0 0 [exOWMEntry] exCurrent).detailed_forecast.map
      (fun e => e.temp) = [1027/100] ∧
    (103/10 : ℚ) ≠ 1027/100 := by
  refine ⟨?_, rfl, by norm_num⟩
  show round1 (1027/100 : ℚ) = 103/10
  exact round1_1027over100

/-- C5 (amended): whenever detailed_forecast is non-empty, current_temp
equals the first entry's temperature for Open-Meteo (where the entries store
rounded temperatures), and equals the one-decimal rounding of the first
entry's (unrounded) temperature for OpenWeatherMap. -/
theorem current_temp_first_entry :
    (∀ (r : OMResponse) (now : ℤ) (snap : Snapshot OMEntry) (e : OMEntry) (rest : List OMEntry),
      r.hourly_temperature_2m.length = r.hourly_time.length →
      r.hourly_weather_code.length = r.hourly_time.length →
      omGetTodayForecast r now = some snap →
      snap.detailed_forecast = e :: rest →
      snap.current_temp = e.temp) ∧
    (∀ (now machine_offset : ℤ) (forecast_list : List OWMEntry)
      (current_data : CurrentWeather) (e : OWMKeptEntry) (rest : List OWMKeptEntry),
      (owmGetTodayForecast now machine_offset forecast_list current_data).detailed_forecast
        = e :: rest →
      (owmGetTodayForecast now machine_offset forecast_list current_data).current_temp
        = round1 e.temp) := by
  constructor
  · intro r now snap e rest hT hC hget hdet
    obtain ⟨dmax, dmin, hM, hm, hcase⟩ := omGet_inv r now snap hT hC hget
    rcases hcase with ⟨hK, t0, c0, ht0, hc0, rfl⟩ | ⟨k, ks, hK, rfl⟩
    · exact absurd hdet (by simp)
    · simp only [List.map_cons, List.cons.injEq] at hdet
      obtain ⟨he, -⟩ := hdet
      rw [← he]
  · intro now off fl cur e rest hdet
    rcases owmGet_cases now off fl cur with ⟨hnil, -, -, -⟩ | ⟨e', rest', hcons, -, -, hcur⟩
    · rw [hnil] at hdet
      exact absurd hdet (by simp)
    · rw [hcons] at hdet
      injection hdet with h1 _
      rw [hcur, h1]

/-- C5 witness: the sample Open-Meteo response (current 10 equals the first
entry's stored 10) and the OpenWeatherMap run on `exOWMEntry` (current 10.3
is the rounding of the first entry's 10.27). -/
theorem current_temp_first_entry_witness :
    omGetTodayForecast exOMResponse 0 = some exOMSnapshot ∧
    exOMSnapshot.detailed_forecast = exOMEntry :: [] ∧
    exOMSnapshot.current_temp = exOMEntry.temp ∧
    (owmGetTodayForecast 0 0 [exOWMEntry] exCurrent).detailed_forecast =
      exOWMKeptEntry :: [] ∧
    (owmGetTodayForecast 0 0 [exOWMEntry] exCurrent).current_temp =
      round1 exOWMKeptEntry.temp :=
  ⟨omGet_exOMResponse, rfl,
    current_temp_first_entry.1 exOMResponse 0 exOMSnapshot exOMEntry [] rfl rfl
      omGet_exOMResponse rfl,
    rfl,
    current_temp_first_entry.2 0 0 [exOWMEntry] exCurrent exOWMKeptEntry [] rfl⟩

/-! ## C10: Open-Meteo totality needs non-empty hourly arrays -/

/-- C10: `OpenMeteoProvider.get_today_forecast` is partial on responses with
empty hourly arrays: with `hourly.time` and `hourly.temperature_2m` empty no
snapshot is returned (the `hourly_temps[0]` fallback read raises IndexError),
while on aligned non-empty hourly arrays with non-empty daily arrays a
snapshot is always returned. -/
theorem omGet_requires_nonempty_hourly :
    (∀ (r : OMResponse) (now : ℤ), r.hourly_time = [] → r.hourly_temperature_2m = [] →
      omGetTodayForecast r now = none) ∧
    (∀ (r : OMResponse) (now : ℤ),
      r.hourly_temperature_2m.length = r.hourly_time.length →
      r.hourly_weather_code.length = r.hourly_time.length →
      r.hourly_time ≠ [] → r.daily_temperature_2m_max ≠ [] →
      r.daily_temperature_2m_min ≠ [] →
      (omGetTodayForecast r now).isSome = true) := by
  constructor
  · intro r now hTimes hTemps
    unfold omGetTodayForecast
    rcases hM : r.daily_temperature_2m_max[0]? with _ | dmax <;>
      rcases hm : r.daily_temperature_2m_min[0]? with _ | dmin <;>
        simp [omCollect, hTimes, hTemps]
  · intro r now hT hC hne hdM hdm
    obtain ⟨dmax, dmaxs, hM⟩ := List.exists_cons_of_ne_nil hdM
    obtain ⟨dmin, dmins, hm⟩ := List.exists_cons_of_ne_nil hdm
    have hM0 : r.daily_temperature_2m_max[0]? = some dmax := by rw [hM]; simp
    have hm0 : r.daily_temperature_2m_min[0]? = some dmin := by rw [hm]; simp
    rcases hK : omKeptSamples r now with _ | ⟨k, ks⟩
    · have hTne : r.hourly_temperature_2m ≠ [] := by
        intro h
        apply hne
        rw [h] at hT
        simpa using (List.length_eq_zero.mp hT.symm)
      have hCne : r.hourly_weather_code ≠ [] := by
        intro h
        apply hne
        rw [h] at hC
        simpa using (List.length_eq_zero.mp hC.symm)
      obtain ⟨t0, ts0, hTs⟩ := List.exists_cons_of_ne_nil hTne
      obtain ⟨c0, cs0, hCs⟩ := List.exists_cons_of_ne_nil hCne
      have ht0 : r.hourly_temperature_2m[0]? = some t0 := by rw [hTs]; simp
      have hc0 : r.hourly_weather_code[0]? = some c0 := by rw [hCs]; simp
      rw [omGet_kept_nil r now dmax dmin t0 c0 hT hC hK hM0 hm0 ht0 hc0]
      rfl
    · rw [omGet_kept_cons r now k ks dmax dmin hT hC hK hM0 hm0]
      rfl

/-- C10 witness: the empty-hourly response yields no snapshot; the sample
non-empty response yields one. -/
theorem omGet_requires_nonempty_hourly_witness :
    exOMResponseEmpty.hourly_time = [] ∧
    omGetTodayForecast exOMResponseEmpty 0 = none ∧
    exOMResponse.hourly_time ≠ [] ∧
    (omGetTodayForecast exOMResponse 0).isSome = true :=
  ⟨rfl,
    omGet_requires_nonempty_hourly.1 exOMResponseEmpty 0 rfl rfl,
    by simp [exOMResponse],
    omGet_requires_nonempty_hourly.2 exOMResponse 0 rfl rfl (by simp [exOMResponse])
      (by simp [exOMResponse]) (by simp [exOMResponse])⟩

/-! ## Date strings: "%Y-%m-%d" compares chronologically -/

theorem digitChar_lt_digitChar : ∀ a b : Fin 10, a.val < b.val →
    digitChar a.val < digitChar b.val := by decide

theorem digitChar_lt {a b : ℕ} (ha : a < 10) (hb : b < 10) (h : a < b) :
    digitChar a < digitChar b :=
  digitChar_lt_digitChar ⟨a, ha⟩ ⟨b, hb⟩ h

theorem twoDigit_lt {a b : ℕ} (ha : a ≤ 99) (hb : b ≤ 99) (h : a < b) (r1 r2 : List Char) :
    (digitChar (a / 10) :: digitChar (a % 10) :: r1)
      < (digitChar (b / 10) :: digitChar (b % 10) :: r2) := by
  rcases Nat.lt_or_ge (a / 10) (b / 10) with h1 | h1
  · exact List.Lex.rel (digitChar_lt (by omega) (by omega) h1)
  · have e1 : a / 10 = b / 10 := by omega
    rw [e1]
    exact List.Lex.cons (List.Lex.rel (digitChar_lt (by omega) (by omega) (by omega)))

theorem fourDigit_lt {a b : ℕ} (ha : a ≤ 9999) (hb : b ≤ 9999) (h : a < b) (r1 r2 : List Char) :
    (digitChar (a / 1000) :: digitChar (a / 100 % 10) :: digitChar (a / 10 % 10)
        :: digitChar (a % 10) :: r1)
      < (digitChar (b / 1000) :: digitChar (b / 100 % 10) :: digitChar (b / 10 % 10)
        :: digitChar (b % 10) :: r2) := by
  rcases Nat.lt_or_ge (a / 1000) (b / 1000) with h1 | h1
  · exact List.Lex.rel (digitChar_lt (by omega) (by omega) h1)
  · have e1 : a / 1000 = b / 1000 := by omega
    rw [e1]
    refine List.Lex.cons ?_
    rcases Nat.lt_or_ge (a / 100 % 10) (b / 100 % 10) with h2 | h2
    · exact List.Lex.rel (digitChar_lt (by omega) (by omega) h2)
    · have e2 : a / 100 % 10 = b / 100 % 10 := by omega
      rw [e2]
      refine List.Lex.cons ?_
      rcases Nat.lt_or_ge (a / 10 % 10) (b / 10 % 10) with h3 | h3
      · exact List.Lex.rel (digitChar_lt (by omega) (by omega) h3)
      · have e3 : a / 10 % 10 = b / 10 % 10 := by omega
        rw [e3]
        exact List.Lex.cons (List.Lex.rel (digitChar_lt (by omega) (by omega) (by omega)))

theorem daysInMonth_le_31 (y m : ℤ) : daysInMonth y m ≤ 31 := by
  unfold daysInMonth
  split_ifs <;> norm_num

theorem fmtDate_lt_of_lex : ∀ {x y : CivilDate}, x.valid → y.valid → CivilDate.lexLt x y →
    fmtDate x < fmtDate y := by
  rintro ⟨xy, xm, xd⟩ ⟨yy, ym, yd⟩ ⟨hx1, hx2, hx3, hx4, hx5, hx6⟩
    ⟨hy1, hy2, hy3, hy4, hy5, hy6⟩ h
  unfold CivilDate.lexLt at h
  dsimp only at h hx1 hx2 hx3 hx4 hx5 hx6 hy1 hy2 hy3 hy4 hy5 hy6
  have hx31 : xd ≤ 31 := le_trans hx6 (daysInMonth_le_31 _ _)
  have hy31 : yd ≤ 31 := le_trans hy6 (daysInMonth_le_31 _ _)
  rw [String.lt_iff_toList_lt]
  show (digitChar (xy.toNat / 1000) :: digitChar (xy.toNat / 100 % 10)
      :: digitChar (xy.toNat / 10 % 10) :: digitChar (xy.toNat % 10) :: '-'
      :: digitChar (xm.toNat / 10) :: digitChar (xm.toNat % 10) :: '-'
      :: digitChar (xd.toNat / 10) :: digitChar (xd.toNat % 10) :: [])
    < (digitChar (yy.toNat / 1000) :: digitChar (yy.toNat / 100 % 10)
      :: digitChar (yy.toNat / 10 % 10) :: digitChar (yy.toNat % 10) :: '-'
      :: digitChar (ym.toNat / 10) :: digitChar (ym.toNat % 10) :: '-'
      :: digitChar (yd.toNat / 10) :: digitChar (yd.toNat % 10) :: [])
  rcases h with hlt | ⟨he, h⟩
  · exact fourDigit_lt (by omega) (by omega) (by omega) _ _
  · rw [he]
    refine List.Lex.cons (List.Lex.cons (List.Lex.cons (List.Lex.cons (List.Lex.cons ?_))))
    rcases h with hlt | ⟨hm, hd⟩
    · exact twoDigit_lt (by omega) (by omega) (by omega) _ _
    · rw [hm]
      refine List.Lex.cons (List.Lex.cons (List.Lex.cons ?_))
      exact twoDigit_lt (by omega) (by omega) (by omega) _ _

theorem yearDays_add_ge (a d : ℤ) (hd : 0 ≤ d) :
    yearDays a + 365 * d - 1 ≤ yearDays (a + d) := by
  have h4 : a / 4 + d / 4 ≤ (a + d) / 4 := by omega
  have h100 : (a + d) / 100 ≤ a / 100 + d / 100 + 1 := by omega
  have h400 : a / 400 + d / 400 ≤ (a + d) / 400 := by omega
  have hcmp : d / 100 ≤ d / 4 := by omega
  have h400b : 0 ≤ d / 400 := by omega
  unfold yearDays
  linarith

theorem yearDays_mono {a b : ℤ} (h : a ≤ b) : yearDays a ≤ yearDays b := by
  rcases eq_or_lt_of_le h with rfl | hlt
  · exact le_refl _
  · have h1 := yearDays_add_ge a (b - a) (by omega)
    have e : a + (b - a) = b := by ring
    rw [e] at h1
    linarith

set_option maxHeartbeats 1000000 in
theorem daysFromCivil_lt_of_lex : ∀ {x y : CivilDate}, x.valid → y.valid →
    CivilDate.lexLt x y → daysFromCivil x < daysFromCivil y := by
  rintro ⟨xy, xm, xd⟩ ⟨yy, ym, yd⟩ ⟨hx1, hx2, hx3, hx4, hx5, hx6⟩
    ⟨hy1, hy2, hy3, hy4, hy5, hy6⟩ h
  unfold CivilDate.lexLt at h
  unfold daysInMonth isLeapYear at hx6 hy6
  unfold daysFromCivil
  dsimp only at h hx1 hx2 hx3 hx4 hx5 hx6 hy1 hy2 hy3 hy4 hy5 hy6 ⊢
  rcases h with hlt | ⟨he, h⟩
  · -- different years
    have hdx1 : 0 ≤ (153 * ((xm + 9) % 12) + 2) / 5 := by omega
    have hdx2 : (153 * ((xm + 9) % 12) + 2) / 5 ≤ 337 := by omega
    have hdy1 : 0 ≤ (153 * ((ym + 9) % 12) + 2) / 5 := by omega
    have d1 : xd ≤ 31 := by split_ifs at hx6 <;> linarith
    split_ifs with c1 c2 c2
    · -- xm ≤ 2, ym ≤ 2
      have hdy3 : 306 ≤ (153 * ((ym + 9) % 12) + 2) / 5 := by omega
      have hY := yearDays_add_ge (xy - 1) (yy - xy) (by omega)
      have e : xy - 1 + (yy - xy) = yy - 1 := by ring
      rw [e] at hY
      linarith
    · -- xm ≤ 2, ym ≥ 3
      have hY := yearDays_add_ge (xy - 1) (yy - xy + 1) (by omega)
      have e : xy - 1 + (yy - xy + 1) = yy := by ring
      rw [e] at hY
      linarith
    · -- xm ≥ 3, ym ≤ 2
      have hdy3 : 306 ≤ (153 * ((ym + 9) % 12) + 2) / 5 := by omega
      have hxd : (153 * ((xm + 9) % 12) + 2) / 5 + xd ≤ 306 := by
        split_ifs at hx6 <;> omega
      have hY := yearDays_mono (show xy ≤ yy - 1 by omega)
      linarith
    · -- xm ≥ 3, ym ≥ 3
      have hxd : (153 * ((xm + 9) % 12) + 2) / 5 + xd ≤ 306 := by
        split_ifs at hx6 <;> omega
      have hY := yearDays_add_ge xy (yy - xy) (by omega)
      have e : xy + (yy - xy) = yy := by ring
      rw [e] at hY
      linarith
  · subst he
    rcases h with hlt | ⟨hm, hd⟩
    · -- same year, earlier month
      unfold yearDays
      interval_cases xm <;> split_ifs at hx6 ⊢ <;> omega
    · -- same year and month, earlier day
      subst hm
      linarith

theorem lex_of_daysFromCivil_lt {x y : CivilDate} (hx : x.valid) (hy : y.valid)
    (h : daysFromCivil x < daysFromCivil y) : CivilDate.lexLt x y := by
  rcases lt_trichotomy x.year y.year with h1 | h1 | h1
  · exact Or.inl h1
  · rcases lt_trichotomy x.month y.month with h2 | h2 | h2
    · exact Or.inr ⟨h1, Or.inl h2⟩
    · rcases lt_trichotomy x.day y.day with h3 | h3 | h3
      · exact Or.inr ⟨h1, Or.inr ⟨h2, h3⟩⟩
      · exfalso
        have heq : daysFromCivil x = daysFromCivil y := by
          unfold daysFromCivil
          rw [h1, h2, h3]
        rw [heq] at h
        exact lt_irrefl _ h
      · exact absurd h
          (lt_asymm (daysFromCivil_lt_of_lex hy hx (Or.inr ⟨h1.symm, Or.inr ⟨h2.symm, h3⟩⟩)))
    · exact absurd h (lt_asymm (daysFromCivil_lt_of_lex hy hx (Or.inr ⟨h1.symm, Or.inl h2⟩)))
  · exact absurd h (lt_asymm (daysFromCivil_lt_of_lex hy hx (Or.inl h1)))

theorem fmtDate_lt_of_days_lt {x y : CivilDate} (hx : x.valid) (hy : y.valid)
    (h : daysFromCivil x < daysFromCivil y) : fmtDate x < fmtDate y :=
  fmtDate_lt_of_lex hx hy (lex_of_daysFromCivil_lt hx hy h)

/-! ## The temperature store: append and retention -/

theorem appendReading_fresh (key : String) (r : Reading) :
    appendReading [] key r = [(key, [r])] := by
  simp [appendReading]

theorem appendReading_existing (key : String) (acc : List Reading) (r : Reading) :
    appendReading [(key, acc)] key r = [(key, acc ++ [r])] := by
  simp [appendReading]

theorem save_keeps_single (nowDay : ℤ) (key : String) (l : List Reading)
    (h : fmtDate (civilFromDays (nowDay - 7)) ≤ key) :
    save_temp_storage nowDay [(key, l)] = [(key, l)] := by
  have hd : decide (fmtDate (civilFromDays (nowDay - 7)) ≤ key) = true := decide_eq_true h
  unfold save_temp_storage
  simp only [List.filter, hd]

theorem save_drops_single (nowDay : ℤ) (key : String) (l : List Reading)
    (h : ¬ fmtDate (civilFromDays (nowDay - 7)) ≤ key) :
    save_temp_storage nowDay [(key, l)] = [] := by
  have hd : decide (fmtDate (civilFromDays (nowDay - 7)) ≤ key) = false := decide_eq_false h
  unfold save_temp_storage
  simp only [List.filter, hd]

theorem recordReadingStep_empty (nowDay : ℤ) (key : String) (r : Reading)
    (hkey : key = fmtDate (civilFromDays nowDay))
    (hkeep : fmtDate (civilFromDays (nowDay - 7)) ≤ key) :
    recordReadingStep nowDay [] r = [(key, [r])] := by
  unfold recordReadingStep
  rw [← hkey, appendReading_fresh]
  exact save_keeps_single nowDay key [r] hkeep

theorem recordReadingStep_single (nowDay : ℤ) (key : String) (acc : List Reading) (r : Reading)
    (hkey : key = fmtDate (civilFromDays nowDay))
    (hkeep : fmtDate (civilFromDays (nowDay - 7)) ≤ key) :
    recordReadingStep nowDay [(key, acc)] r = [(key, acc ++ [r])] := by
  unfold recordReadingStep
  rw [← hkey, appendReading_existing]
  exact save_keeps_single nowDay key (acc ++ [r]) hkeep

theorem foldl_recordReadingStep (nowDay : ℤ) (key : String)
    (hkey : key = fmtDate (civilFromDays nowDay))
    (hkeep : fmtDate (civilFromDays (nowDay - 7)) ≤ key) :
    ∀ (rs acc : List Reading),
      List.foldl (recordReadingStep nowDay) [(key, acc)] rs = [(key, acc ++ rs)] := by
  intro rs
  induction rs with
  | nil =>
    intro acc
    simp
  | cons r rest ih =>
    intro acc
    rw [List.foldl_cons, recordReadingStep_single nowDay key acc r hkey hkeep, ih (acc ++ [r])]
    simp

/-! ## C9: round trip and 7-day retention of the reading store -/

/-- C9: recording N readings on date D (valid, with 4-digit year; `n` its day
number, `C7d` the civil date 7 days earlier, `C1d` the civil date of
`(D+8 days) - 7 days = D+1`) into an empty store yields exactly the store
mapping D's date string to those N readings in insertion order; saving that
store with current day D+8 then drops D, because `save_temp_storage` keeps
only date strings at or above the `now - 7 days` cutoff string. -/
theorem temp_storage_roundtrip_retention (n : ℤ) (D C7d C1d : CivilDate)
    (rs : List Reading)
    (hD : civilFromDays n = D) (hDv : D.valid) (hDn : daysFromCivil D = n)
    (hC7 : civilFromDays (n - 7) = C7d) (hC7v : C7d.valid) (hC7n : daysFromCivil C7d = n - 7)
    (hC1 : civilFromDays (n + 8 - 7) = C1d) (hC1v : C1d.valid) (hC1n : daysFromCivil C1d = n + 1)
    (hrs : rs ≠ []) :
    List.foldl (recordReadingStep n) [] rs = [(fmtDate D, rs)] ∧
    save_temp_storage (n + 8) (List.foldl (recordReadingStep n) [] rs) = [] := by
  have hkey : fmtDate D = fmtDate (civilFromDays n) := by rw [hD]
  have hkeep : fmtDate (civilFromDays (n - 7)) ≤ fmtDate D := by
    rw [hC7]
    exact le_of_lt (fmtDate_lt_of_days_lt hC7v hDv (by omega))
  have part1 : List.foldl (recordReadingStep n) [] rs = [(fmtDate D, rs)] := by
    obtain ⟨r0, rest, rfl⟩ := List.exists_cons_of_ne_nil hrs
    rw [List.foldl_cons, recordReadingStep_empty n (fmtDate D) r0 hkey hkeep,
      foldl_recordReadingStep n (fmtDate D) hkey hkeep rest [r0]]
    simp
  refine ⟨part1, ?_⟩
  rw [part1]
  apply save_drops_single
  rw [show n + 8 - 7 = n + 1 by ring] at hC1
  rw [show n + 8 - 7 = n + 1 by ring, hC1]
  exact not_le_of_lt (fmtDate_lt_of_days_lt hDv hC1v (by omega))

/-- C9 witness: day number 19723 is 2024-01-01; two readings recorded on it
round-trip in order, and saving with current day 19731 (= 2024-01-09) purges
the date. -/
theorem temp_storage_roundtrip_retention_witness :
    civilFromDays 19723 = ({ year := 2024, month := 1, day := 1 } : CivilDate) ∧
    ({ year := 2024, month := 1, day := 1 } : CivilDate).valid ∧
    civilFromDays (19723 - 7) = ({ year := 2023, month := 12, day := 25 } : CivilDate) ∧
    civilFromDays (19723 + 8 - 7) = ({ year := 2024, month := 1, day := 2 } : CivilDate) ∧
    List.foldl (recordReadingStep 19723) []
      [{ time := "08:00", temp := 10, description := "clear sky" },
       { time := "20:00", temp := 12, description := "overcast" }] =
      [(fmtDate { year := 2024, month := 1, day := 1 },
        [{ time := "08:00", temp := 10, description := "clear sky" },
         { time := "20:00", temp := 12, description := "overcast" }])] ∧
    save_temp_storage (19723 + 8) (List.foldl (recordReadingStep 19723) []
      [{ time := "08:00", temp := 10, description := "clear sky" },
       { time := "20:00", temp := 12, description := "overcast" }]) = [] :=
  ⟨by decide, by decide, by decide, by decide,
    (temp_storage_roundtrip_retention 19723 { year := 2024, month := 1, day := 1 }
      { year := 2023, month := 12, day := 25 } { year := 2024, month := 1, day := 2 }
      [{ time := "08:00", temp := 10, description := "clear sky" },
       { time := "20:00", temp := 12, description := "overcast" }]
      (by decide) (by decide) (by decide) (by decide) (by decide) (by decide)
      (by decide) (by decide) (by decide) (by decide)).1,
    (temp_storage_roundtrip_retention 19723 { year := 2024, month := 1, day := 1 }
      { year := 2023, month := 12, day := 25 } { year := 2024, month := 1, day := 2 }
      [{ time := "08:00", temp := 10, description := "clear sky" },
       { time := "20:00", temp := 12, description := "overcast" }]
      (by decide) (by decide) (by decide) (by decide) (by decide) (by decide)
      (by decide) (by decide) (by decide) (by decide)).2⟩
